import Mathlib

/-
Verification of the lpipy taxonomy index engine against its specification.

The definitions below are a shallow embedding of src/lpi/taxonomy.py
(class NCBITaxonomyDB), src/lpi/tax.py (class NCBITaxa) and
src/misc/tax_lookup.py.  Python dicts that the code iterates are embedded
as association lists so that iteration order is explicit; sqlite tables
are embedded as lists of row tuples; Python exceptions are embedded with
Option and Except.
-/

namespace LpiTax

/-- Association-list lookup, first binding wins.  Models a Python dict
read `m[k]` / `m.get(k)` (keys in our inputs are unique). -/
def lookupA {α : Type} (m : List (Nat × α)) (k : Nat) : Option α :=
  (m.find? (fun p => p.1 == k)).map Prod.snd

/-- Models the Python membership test `k in m` on a dict. -/
def memA {α : Type} (m : List (Nat × α)) (k : Nat) : Bool :=
  (m.find? (fun p => p.1 == k)).isSome

/-- Models the Python dict assignment `m[k] = v`: an existing key keeps
its position and gets the new value, a new key is appended. -/
def setA {α : Type} (m : List (Nat × α)) (k : Nat) (v : α) : List (Nat × α) :=
  if memA m k then m.map (fun p => if p.1 == k then (k, v) else p) else m ++ [(k, v)]

/-- The `while True` walk of `NCBITaxonomyDB._load_db` (taxonomy.py lines
225-237): starting from `thisid`, repeatedly look the current node up in
`tree`; on a hit extend `subtree` with the cached chain and stop, else
step to `nodes[thisid]`, appending it to both `subtree` and `newtree`.
Fuel bounds the loop; `none` models a `KeyError` on `nodes[thisid]` or a
non-terminating walk (cyclic input). -/
def walkUp (nodesL : List (Nat × Nat)) (tree : List (Nat × List Nat)) :
    Nat → Nat → List Nat → List Nat → Option (List Nat × List Nat)
  | 0, _, _, _ => none
  | Nat.succ fuel, thisid, subtree, newtree =>
    match lookupA tree thisid with
    | some chain => some (subtree ++ chain, newtree)
    | none =>
      match lookupA nodesL thisid with
      | none => none
      | some thisparent =>
        walkUp nodesL tree fuel thisparent (subtree ++ [thisparent]) (newtree ++ [thisparent])

/-- The `for i in range(len(newtree))` loop of `_load_db` (lines 239-242):
`tree[subtree[i]] = subtree[i+1:]` for each index of the newly walked
section. -/
def assignChains (tree : List (Nat × List Nat)) (subtree : List Nat) (n : Nat) :
    List (Nat × List Nat) :=
  (List.range n).foldl (fun t i => setA t (subtree.getD i 0) (subtree.drop (i + 1))) tree

/-- One iteration of the `for taxon, parent in nodes.items()` loop of
`_load_db` (lines 218-242).  The fast path is the literal
`tree[taxon] = [taxon] + tree[parent]` of line 220; the slow path seeds
`subtree = newtree = [taxon, parent]` and runs the upward walk. -/
def buildStep (nodesL : List (Nat × Nat)) (tree : List (Nat × List Nat)) (tp : Nat × Nat) :
    Option (List (Nat × List Nat)) :=
  if memA tree tp.2 && tp.1 != 1 then
    some (setA tree tp.1 (tp.1 :: (lookupA tree tp.2).getD []))
  else
    match walkUp nodesL tree (nodesL.length + 2) tp.2 [tp.1, tp.2] [tp.1, tp.2] with
    | none => none
    | some (subtree, newtree) => some (assignChains tree subtree newtree.length)

/-- The Ancestor-Path Builder of `_load_db` (lines 214-242): seed
`tree = {1: []}` and fold the node map over `buildStep` in the given
iteration order. -/
def buildTree (nodesL : List (Nat × Nat)) : Option (List (Nat × List Nat)) :=
  nodesL.foldl (fun acc tp => acc.bind (fun t => buildStep nodesL t tp)) (some [(1, [])])

example : (buildTree [(1, 1), (2, 1)]).bind (fun t => lookupA t 2) = some [2] := by decide

example : (buildTree [(2, 1), (3, 2)]).bind (fun t => lookupA t 3) = some [3, 2] := by decide

example : (buildTree [(3, 2), (2, 1)]).bind (fun t => lookupA t 3) = some [2, 1] := by decide

example : (buildTree [(1, 1), (2, 1), (3, 2), (4, 3)]).bind (fun t => lookupA t 4)
    = some [4, 3, 2] := by decide

/-- The four sqlite tables of `NCBITaxonomyDB._create_db`, as lists of row
tuples.  `taxa` rows are `(taxid, name, rank)`; `parents` rows are
`(taxid, parent, level)`. -/
structure Store where
  merges : List (Nat × Nat)
  sequences : List (Nat × Nat)
  taxa : List (Nat × String × String)
  parents : List (Nat × Nat × Nat)
  deriving DecidableEq, Repr

/-- The table-filling phase of `_load_db` (lines 246-251 plus the
sequence and merge inserts): build the tree, then for every
`(taxid, parents)` entry insert `(taxid, par, level)` rows (level from
`enumerate`) and one `(taxid, names[taxid], ranks[taxid])` taxa row.
`none` models a `KeyError` on a taxid with no scientific name or rank. -/
def load_store (nodesL : List (Nat × Nat)) (namesL ranksL : List (Nat × String))
    (mergesL seqsL : List (Nat × Nat)) : Option Store :=
  match buildTree nodesL with
  | none => none
  | some tree =>
    match tree.mapM (fun p => (lookupA namesL p.1).bind
        (fun nm => (lookupA ranksL p.1).map (fun rk => (p.1, nm, rk)))) with
    | none => none
    | some taxaRows =>
      some ⟨mergesL, seqsL, taxaRows,
        (tree.map (fun p => p.2.enum.map (fun e => (p.1, e.2, e.1)))).flatten⟩

/-- Insertion step for sorting parents rows by their `level` column,
modelling the `ORDER BY parents.level` of `taxon_parents`. -/
def insertByLevel (r : Nat × Nat × Nat) : List (Nat × Nat × Nat) → List (Nat × Nat × Nat)
  | [] => [r]
  | x :: xs => if r.2.2 < x.2.2 then r :: x :: xs else x :: insertByLevel r xs

/-- Stable sort of parents rows by ascending `level`. -/
def sortByLevel (rows : List (Nat × Nat × Nat)) : List (Nat × Nat × Nat) :=
  rows.foldr insertByLevel []

/-- Lookup of a `taxa` row by primary key, returning `(name, rank)`. -/
def findTaxa (taxaL : List (Nat × String × String)) (t : Nat) : Option (String × String) :=
  (taxaL.find? (fun r => r.1 == t)).map Prod.snd

/-- `NCBITaxonomyDB.taxon_parents` (taxonomy.py lines 301-310): the SQL
query selecting `(parents.parent, taxa.rank, taxa.name)` for the rows
with `parents.taxid = taxid`, inner-joined against `taxa` on the parent
id, ordered by ascending `level`. -/
def taxon_parents (s : Store) (taxid : Nat) : List (Nat × String × String) :=
  (sortByLevel (s.parents.filter (fun r => r.1 == taxid))).filterMap
    (fun r => (findTaxa s.taxa r.2.1).map (fun nr => (r.2.1, nr.2, nr.1)))

/-- Result type of `NCBITaxonomyDB.get_merged_taxid`: the Python function
returns either the raw `fetchone()` row (a one-element tuple) or the
original integer taxid, so its result is a union of the two shapes. -/
inductive MergeResult
  | row : List Nat → MergeResult
  | scalar : Nat → MergeResult
  deriving DecidableEq, Repr

/-- `NCBITaxonomyDB.get_merged_taxid` (taxonomy.py lines 280-288):
`SELECT newid FROM merges WHERE oldid = ?`; a found row is returned as
is (the tuple `(newid,)` is truthy), otherwise the taxid comes back. -/
def get_merged_taxid (s : Store) (taxid : Nat) : MergeResult :=
  match lookupA s.merges taxid with
  | some newid => MergeResult.row [newid]
  | none => MergeResult.scalar taxid

/-- `get_merged_id` of src/misc/tax_lookup.py (lines 8-14): the same
query, but the scalar `newid[0]` is extracted from the row. -/
def get_merged_id (s : Store) (taxid : Nat) : Nat :=
  match lookupA s.merges taxid with
  | some newid => newid
  | none => taxid

/-- Errors raised by the query engine: `notFound` models the
`ValueError("GI ... not found in database")` of `gi_to_taxid`, and
`interfaceError` models the sqlite3 binding error raised when
`taxon_parents` is handed the row tuple that `get_merged_taxid` returns
for a merged taxid instead of an integer. -/
inductive DBError
  | notFound : Nat → DBError
  | interfaceError : DBError
  deriving DecidableEq, Repr

/-- `NCBITaxonomyDB.gi_to_taxid` (taxonomy.py lines 290-299):
`SELECT taxid FROM sequences WHERE gi = ?`; a missing row raises
`ValueError`, a found row yields `res[0]`. -/
def gi_to_taxid (s : Store) (gi : Nat) : Except DBError Nat :=
  match lookupA s.sequences gi with
  | some t => Except.ok t
  | none => Except.error (DBError.notFound gi)

/-- Models the Python `OrderedDict` assignment `m[k] = v`: an existing
key keeps its insertion position and gets the new value. -/
def odSet {α : Type} (m : List (String × α)) (k : String) (v : α) : List (String × α) :=
  if m.any (fun p => p.1 == k) then m.map (fun p => if p.1 == k then (k, v) else p)
  else m ++ [(k, v)]

/-- `NCBITaxonomyDB.taxon_lineage` (taxonomy.py lines 312-319): resolve
merges, then fold `taxon_parents` into an `OrderedDict` keyed by rank,
keeping only ranks in the requested set.  When `get_merged_taxid`
returned a row tuple, passing it to `taxon_parents` as the query
parameter raises; the entries are `(rank, taxid, name)`. -/
def taxon_lineage (s : Store) (taxid : Nat) (ranks : List String) :
    Except DBError (List (String × Nat × String)) :=
  match get_merged_taxid s taxid with
  | MergeResult.row _ => Except.error DBError.interfaceError
  | MergeResult.scalar t =>
    Except.ok ((taxon_parents s t).foldl
      (fun acc pr => if ranks.contains pr.2.1 then odSet acc pr.2.1 (pr.1, pr.2.2) else acc) [])

/-- The module-level `DEFAULT_RANKS` of taxonomy.py. -/
def DEFAULT_RANKS : List String :=
  ["species", "genus", "family", "order", "class", "phylum", "kingdom", "superkingdom"]

/-- `NCBITaxonomyDB.sequence_lineage` (taxonomy.py lines 321-323):
resolve the gi, then call `self.taxon_lineage(taxid)` — the `ranks`
argument the caller passed is not forwarded, so the default rank list is
used. -/
def sequence_lineage (s : Store) (gi : Nat) (ranks : List String) :
    Except DBError (List (String × Nat × String)) :=
  match gi_to_taxid s gi with
  | Except.error e => Except.error e
  | Except.ok t => taxon_lineage s t DEFAULT_RANKS

/-- The module-level `DB_VERSION` of taxonomy.py and tax.py. -/
def DB_VERSION : Nat := 1

/-- The two metadata fields the `_connect` validation reads from the
`.info` sidecar file (source checksums are irrelevant to validation and
elided). -/
structure Metadata where
  db_version : Nat
  db_complete : Bool
  deriving DecidableEq, Repr

/-- The validation decision of `NCBITaxonomyDB._connect` (taxonomy.py
lines 64-80): a rebuild (`_wipe_db` then `_create_db`) is triggered when
the metadata file cannot be read (`none`), the version mismatches, or
`db_complete` is false; otherwise the store is used as is. -/
def taxonomydb_needs_rebuild (disk : Option Metadata) : Bool :=
  match disk with
  | none => true
  | some m => m.db_version != DB_VERSION || !m.db_complete

/-- The validation decision of `NCBITaxa._connect` (tax.py lines 55-68):
a rebuild is triggered when the metadata file cannot be read or the
version mismatches; `db_complete` is never consulted. -/
def taxa_needs_rebuild (disk : Option Metadata) : Bool :=
  match disk with
  | none => true
  | some m => m.db_version != DB_VERSION

/-- The class-level default `NCBITaxonomyDB.metadata` (taxonomy.py lines
47-53): current version, `db_complete = False`. -/
def DEFAULT_METADATA : Metadata := ⟨DB_VERSION, false⟩

/-- The metadata that `NCBITaxonomyDB._create_db` persists via
`_write_metadata` before `_load_db` starts, as a function of what the
`.info` file held at `_connect` time.  `_connect` first assigns
`self.metadata = json.load(fh)` and only then validates, and
`_create_db` does not reset `self.metadata`, so on the rebuild path the
value written before the load is the loaded metadata when the file was
readable, and the class default otherwise; `none` means no rebuild
happens and nothing is written. -/
def connect_metadata_written_before_load (disk : Option Metadata) : Option Metadata :=
  match disk with
  | none => some DEFAULT_METADATA
  | some m => if m.db_version != DB_VERSION || !m.db_complete then some m else none

/-- Node records of the concrete scenario of spec section 8, in the file
order of the node dump: taxid 1 is the self-parented root. -/
def scenarioNodes : List (Nat × Nat) := [(1, 1), (2, 1), (3, 2), (4, 3)]

/-- Scientific names of the scenario nodes. -/
def scenarioNames : List (Nat × String) :=
  [(1, "root"), (2, "Proteobacteria"), (3, "Escherichia"), (4, "Escherichia coli")]

/-- Ranks of the scenario nodes (the root carries the empty rank). -/
def scenarioRanks : List (Nat × String) :=
  [(1, ""), (2, "phylum"), (3, "genus"), (4, "species")]

/-- The store `_load_db` actually builds from the scenario inputs, with
merge `99 -> 4` and sequence mapping `gi 555 -> taxid 4`. -/
def scenarioBuilt : Option Store :=
  load_store scenarioNodes scenarioNames scenarioRanks [(99, 4)] [(555, 4)]

/-- The scenario store with the ancestor-edge rows the spec prescribes
(strict ancestor chains ending at the root), used to exercise the read
side independently of the builder. -/
def specStore : Store :=
  ⟨[(99, 4)], [(555, 4)],
   [(1, "root", ""), (2, "Proteobacteria", "phylum"), (3, "Escherichia", "genus"),
    (4, "Escherichia coli", "species")],
   [(4, 3, 0), (4, 2, 1), (4, 1, 2), (3, 2, 0), (3, 1, 1), (2, 1, 0)]⟩

/-- Helper for C9: `taxon_lineage` can only fail with the sqlite binding
error (for a merged taxid), never with the not-found error. -/
theorem taxon_lineage_error_is_interface (s : Store) (t : Nat) (ranks : List String)
    (e : DBError) (h : taxon_lineage s t ranks = Except.error e) :
    e = DBError.interfaceError := by
  unfold taxon_lineage at h
  cases hm : get_merged_taxid s t with
  | row r => rw [hm] at h; injection h with h1; exact h1.symm
  | scalar t2 => rw [hm] at h; simp at h

/-- Claim C1: for a rooted parent map, every computed chain ends with
ROOT, is empty iff the node is ROOT, and has length equal to the graph
distance to ROOT.  The claim fails on the code: on the fast path the
builder stores `[taxon] + tree[parent]`, so for `parentOf = {1: 1, 2: 1}`
(iterated root first) node 2 gets the chain `[2]`, which contains the
node itself and does not end with ROOT. -/
theorem c1_fast_path_chain_omits_root :
    (buildTree [(1, 1), (2, 1)]).bind (fun t => lookupA t 2) = some [2] ∧
    ((buildTree [(1, 1), (2, 1)]).bind (fun t => lookupA t 2)).map List.getLast? ≠
      some (some 1) := by decide

/-- Claim C2: feeding the node map to the builder in any permutation
yields an identical ancestors mapping.  The claim fails on the code: for
`parentOf = {2: 1, 3: 2}`, iterating `[(2,1),(3,2)]` puts node 3 at
`[3, 2]` while iterating `[(3,2),(2,1)]` puts it at `[2, 1]`. -/
theorem c2_builder_is_order_dependent :
    (buildTree [(2, 1), (3, 2)]).bind (fun t => lookupA t 3) = some [3, 2] ∧
    (buildTree [(3, 2), (2, 1)]).bind (fun t => lookupA t 3) = some [2, 1] ∧
    (buildTree [(2, 1), (3, 2)]).bind (fun t => lookupA t 3) ≠
      (buildTree [(3, 2), (2, 1)]).bind (fun t => lookupA t 3) := by decide

/-- Claim C3: in the section 8 scenario, `taxon_parents 4` returns
`[(3, genus, Escherichia), (2, phylum, Proteobacteria), (1, "", root)]`.
The claim fails on the code: building the scenario store in node-file
order makes the level-0 ancestor of 4 the node 4 itself and drops the
root row entirely. -/
theorem c3_scenario_ancestors_diverge :
    scenarioBuilt.map (fun s => taxon_parents s 4) =
      some [(4, "species", "Escherichia coli"), (3, "genus", "Escherichia"),
            (2, "phylum", "Proteobacteria")] ∧
    scenarioBuilt.map (fun s => taxon_parents s 4) ≠
      some [(3, "genus", "Escherichia"), (2, "phylum", "Proteobacteria"), (1, "", "root")] :=
  ⟨rfl, by decide⟩

/-- Claim C4: on the rebuild path, fresh metadata with
`buildComplete = false` is persisted before any data load.  The claim
fails on the code: when the existing `.info` file parses but carries a
stale version, `_connect` keeps the loaded metadata and `_create_db`
re-persists it unchanged before `_load_db`, so metadata with
`db_complete = true` sits on disk during the whole build. -/
theorem c4_stale_complete_metadata_rewritten :
    connect_metadata_written_before_load (some ⟨0, true⟩) = some ⟨0, true⟩ ∧
    (connect_metadata_written_before_load (some ⟨0, true⟩)).map Metadata.db_complete =
      some true := by decide

/-- Claim C5: `get_merged_taxid` returns the mapped id as a plain
scalar.  The claim fails on the code: for a merged id the function
returns the raw one-element sqlite row, not the scalar (the near
duplicate `get_merged_id` in tax_lookup.py does extract the scalar, and
unmapped ids do come back unchanged). -/
theorem c5_merge_lookup_returns_row :
    get_merged_taxid specStore 99 = MergeResult.row [4] ∧
    get_merged_taxid specStore 99 ≠ MergeResult.scalar 4 ∧
    get_merged_id specStore 99 = 4 ∧
    get_merged_taxid specStore 1234 = MergeResult.scalar 1234 := by decide

/-- Claim C6: `sequence_lineage gi ranks` equals
`taxon_lineage (gi_to_taxid gi) ranks`.  The claim fails on the code:
the ranks argument is not forwarded, so asking only for genus still
returns the phylum entry selected by the default rank list. -/
theorem c6_caller_ranks_ignored :
    sequence_lineage specStore 555 ["genus"] =
      Except.ok [("genus", 3, "Escherichia"), ("phylum", 2, "Proteobacteria")] ∧
    gi_to_taxid specStore 555 = Except.ok 4 ∧
    taxon_lineage specStore 4 ["genus"] = Except.ok [("genus", 3, "Escherichia")] ∧
    sequence_lineage specStore 555 ["genus"] ≠ taxon_lineage specStore 4 ["genus"] := by
  refine ⟨rfl, rfl, rfl, fun h => ?_⟩
  injection h with h1
  exact absurd h1 (by decide)

/-- Claim C7 counterexample: `NCBITaxa._connect` of tax.py never reads
`db_complete`, so metadata with the right version but
`db_complete = false` does not trigger a rebuild there, contradicting
the claim that all three failure modes always do. -/
theorem c7_taxa_accepts_incomplete_store :
    taxa_needs_rebuild (some ⟨DB_VERSION, false⟩) = false := by decide

/-- Claim C7 as amended: in `NCBITaxonomyDB._connect` an unreadable
metadata file, a version mismatch and an incomplete build flag each
trigger the wipe-and-rebuild, identically, and a valid complete store
is accepted; in `NCBITaxa._connect` only the unreadable-file and
version-mismatch modes do, while the build-complete flag is never
consulted. -/
theorem c7_validation_gating_amended :
    taxonomydb_needs_rebuild none = true ∧
    taxa_needs_rebuild none = true ∧
    (∀ m : Metadata, m.db_version ≠ DB_VERSION → taxonomydb_needs_rebuild (some m) = true) ∧
    (∀ m : Metadata, m.db_complete = false → taxonomydb_needs_rebuild (some m) = true) ∧
    (∀ m : Metadata, m.db_version = DB_VERSION → m.db_complete = true →
      taxonomydb_needs_rebuild (some m) = false) ∧
    (∀ m : Metadata, m.db_version ≠ DB_VERSION → taxa_needs_rebuild (some m) = true) ∧
    (∀ m : Metadata, m.db_version = DB_VERSION → taxa_needs_rebuild (some m) = false) := by
  refine ⟨rfl, rfl, ?_, ?_, ?_, ?_, ?_⟩ <;> intro m
  · intro h; simp [taxonomydb_needs_rebuild, h]
  · intro h; simp [taxonomydb_needs_rebuild, h]
  · intro h1 h2; simp [taxonomydb_needs_rebuild, h1, h2]
  · intro h; simp [taxa_needs_rebuild, h]
  · intro h; simp [taxa_needs_rebuild, h]

/-- Witness for the amended C7 at concrete metadata values. -/
theorem c7_validation_gating_amended_witness :
    taxonomydb_needs_rebuild (some ⟨DB_VERSION, false⟩) = true ∧
    taxa_needs_rebuild (some ⟨2, true⟩) = true :=
  ⟨c7_validation_gating_amended.2.2.2.1 ⟨DB_VERSION, false⟩ rfl,
   c7_validation_gating_amended.2.2.2.2.2.1 ⟨2, true⟩ (by decide)⟩

/-- Claim C8: the lineage contains only requested ranks present in the
chain, never the queried taxon itself, and a recurring rank is won by
the farther occurrence.  The claim fails on the code: on the store the
builder produces for the section 8 scenario, the lineage of taxon 4
contains the species entry `(4, "Escherichia coli")` — the queried
taxon itself. -/
theorem c8_lineage_contains_queried_taxon :
    scenarioBuilt.map (fun s => taxon_lineage s 4 ["species", "genus", "phylum"]) =
      some (Except.ok [("species", 4, "Escherichia coli"), ("genus", 3, "Escherichia"),
                       ("phylum", 2, "Proteobacteria")]) ∧
    scenarioBuilt.map (fun s => (taxon_lineage s 4 ["species", "genus", "phylum"]).map
        (fun l => l.any (fun e => e.2.1 == 4))) = some (Except.ok true) :=
  ⟨rfl, rfl⟩

/-- Claim C9, confirmed: `gi_to_taxid` returns the mapped taxid for
every gi present in the sequences table, fails with the typed not-found
error exactly when the gi is absent, and `sequence_lineage` raises that
same not-found error exactly when the gi is absent. -/
theorem c9_gi_not_found_iff_absent (s : Store) (gi : Nat) :
    (∀ t, lookupA s.sequences gi = some t → gi_to_taxid s gi = Except.ok t) ∧
    (gi_to_taxid s gi = Except.error (DBError.notFound gi) ↔ lookupA s.sequences gi = none) ∧
    (∀ ranks, sequence_lineage s gi ranks = Except.error (DBError.notFound gi) ↔
      lookupA s.sequences gi = none) := by
  refine ⟨?_, ?_, ?_⟩
  · intro t h; simp [gi_to_taxid, h]
  · cases h : lookupA s.sequences gi <;> simp [gi_to_taxid, h]
  · intro ranks
    cases h : lookupA s.sequences gi with
    | none => simp [sequence_lineage, gi_to_taxid, h]
    | some t =>
      simp only [sequence_lineage, gi_to_taxid, h]
      constructor
      · intro hc
        have he := taxon_lineage_error_is_interface s t DEFAULT_RANKS (DBError.notFound gi) hc
        cases he
      · intro hc; cases hc

/-- Witness for C9 on the spec scenario store. -/
theorem c9_gi_not_found_iff_absent_witness :
    gi_to_taxid specStore 555 = Except.ok 4 ∧
    sequence_lineage specStore 9999 ["genus"] = Except.error (DBError.notFound 9999) :=
  ⟨(c9_gi_not_found_iff_absent specStore 555).1 4 (by decide),
   ((c9_gi_not_found_iff_absent specStore 9999).2.2 ["genus"]).mpr (by decide)⟩

/-- Claim C10, confirmed: a taxid with no merge redirect and no
ancestor-edge rows gets the empty ordered lineage, without error, for
every requested rank set. -/
theorem c10_unknown_taxid_empty_lineage (s : Store) (taxid : Nat) (ranks : List String)
    (h1 : lookupA s.merges taxid = none)
    (h2 : s.parents.filter (fun r => r.1 == taxid) = []) :
    taxon_lineage s taxid ranks = Except.ok [] := by
  simp [taxon_lineage, get_merged_taxid, h1, taxon_parents, h2, sortByLevel]

/-- Witness for C10 at the unknown taxid 777 on the spec scenario
store. -/
theorem c10_unknown_taxid_empty_lineage_witness :
    taxon_lineage specStore 777 ["genus"] = Except.ok [] :=
  c10_unknown_taxid_empty_lineage specStore 777 ["genus"] (by decide) (by decide)

end LpiTax
